import Mathlib

/-
  Verification of the valuation / lead-scoring core of the
  samson-realestate-leads repository.

  The embedding translates the Python sources (src/app.py, src/valuation.py)
  into Lean definitions.  Python floats are modelled as exact rationals; on
  every concrete value appearing in the claims the rational results coincide
  with the IEEE double results of the source.  Optional values are Option,
  Python truthiness is made explicit, the SQL-backed override table is a
  finite partial map from ZIP string to rate, and the fallible admin
  endpoints return an explicit status.  Timestamps, HTTP routing,
  authentication and the notification/UI glue are outside the modelled core,
  as the specification declares them out of scope.
-/

namespace Samson

/-- Python str.strip(): drop whitespace from both ends.  Defined over the
character list so that it evaluates by kernel reduction. -/
def pyStrip (s : String) : String :=
  String.mk (((s.toList.dropWhile Char.isWhitespace).reverse.dropWhile
    Char.isWhitespace).reverse)

/-- Python truthiness of an optional string: None and the empty string are
falsy, any other string is truthy. -/
def pyTruthyStr : Option String → Bool
  | none => false
  | some s => !(s == "")

/-- Python truthiness of an optional int: None and 0 are falsy. -/
def pyTruthyInt : Option Int → Bool
  | none => false
  | some n => !(n == 0)

/-- Python truthiness of an optional float (rational model): None and 0.0 are
falsy. -/
def pyTruthyRat : Option ℚ → Bool
  | none => false
  | some q => !(q == 0)

/-- Python `x or d` for an optional int: returns d when x is None or 0. -/
def pyOrInt : Option Int → Int → Int
  | none, d => d
  | some n, d => if n = 0 then d else n

/-- Python `x or d` for an optional float (rational model). -/
def pyOrRat : Option ℚ → ℚ → ℚ
  | none, d => d
  | some q, d => if q = 0 then d else q

/-- Python `int(x)` on a float: truncation toward zero. -/
def pyInt (q : ℚ) : ℤ :=
  if q < 0 then ⌈q⌉ else ⌊q⌋

/-- Python `round(x)` on a float: round half to even. -/
def pyRound (q : ℚ) : ℤ :=
  let f := ⌊q⌋
  let r := q - (f : ℚ)
  if r < 1/2 then f
  else if 1/2 < r then f + 1
  else if f % 2 = 0 then f else f + 1

/-- Python `round(x, 3)`: round to three decimal places, half to even. -/
def pyRound3 (q : ℚ) : ℚ :=
  (pyRound (q * 1000) : ℚ) / 1000

/-- src/app.py line 58: the seeded ZIP to price-per-square-foot table. -/
def PG_PPSF_BASE : List (String × ℚ) :=
  [("20706",255), ("20707",260), ("20708",245), ("20710",240), ("20712",270),
   ("20715",250), ("20716",255), ("20720",265), ("20721",270), ("20722",245),
   ("20735",250), ("20737",255), ("20740",275), ("20742",280), ("20743",235),
   ("20744",245), ("20745",250), ("20746",240), ("20747",238), ("20748",242),
   ("20769",260), ("20770",265), ("20771",270), ("20772",255), ("20774",268),
   ("20781",248), ("20782",252), ("20783",258), ("20784",245), ("20785",240)]

/-- src/app.py line 66 and src/valuation.py line 21: the scalar fallback rate. -/
def DEFAULT_PPSF : ℚ := 220.0

/-- src/app.py line 67: county multiplier table. -/
def COUNTY_MULT : List (String × ℚ) :=
  [("Prince George’s", 1.00),
   ("Calvert", 0.95),
   ("St. Mary\x27s", 0.92),
   ("Charles", 0.95),
   ("Anne Arundel", 1.15),
   ("Montgomery", 1.45),
   ("Howard", 1.30)]

/-- src/app.py line 76: condition adjustment table. -/
def CONDITION_ADJ : List (String × ℚ) :=
  [("Needs work", -0.10),
   ("Average", 0.0),
   ("Updated", 0.05),
   ("Renovated", 0.10)]

/-- The persisted ZipPPSF override table (src/app.py line 46): a partial map
from ZIP string to rate, one row per ZIP. -/
def Store : Type := String → Option ℚ

/-- The empty override table. -/
def store0 : Store := fun _ => none

/-- Upsert of one override row (the body of admin_set_ppsf at src/app.py
lines 222-224 and of the bulk loop at lines 237-239). -/
def storeSet (store : Store) (z : String) (p : ℚ) : Store :=
  fun z2 => if z2 = z then some p else store z2

/-- src/app.py line 83 current_ppsf_map: the seed table updated with every
override row, override winning. -/
def current_ppsf_map (store : Store) : String → Option ℚ :=
  fun z => (store z).orElse (fun _ => List.lookup z PG_PPSF_BASE)

/-- src/app.py line 94: COUNTY_MULT.get((county or "").strip(), 1.0). -/
def countyMultiplier (county : Option String) : ℚ :=
  (List.lookup (pyStrip (county.getD "")) COUNTY_MULT).getD 1.0

/-- The dictionary returned by estimate_value (src/app.py line 105). -/
structure ValuationResult where
  estimate : ℤ
  low : ℤ
  high : ℤ
  ppsf_used : ℚ
  sqft_used : ℤ
  adjustment : ℚ
  band : ℚ
  deriving DecidableEq, Repr

/-- src/app.py lines 90-106, estimate_value: the current revision of the
valuation engine, parametrised by the override table it reads through
current_ppsf_map. -/
def estimate_value (store : Store) (zip_code : Option String) (beds : Option Int)
    (baths : Option ℚ) (sqft : Option Int) (condition : Option String)
    (county : Option String) : ValuationResult :=
  let zip_clean := pyStrip (zip_code.getD "")
  let county_mult := countyMultiplier county
  let base_ppsf := (current_ppsf_map store zip_clean).getD (DEFAULT_PPSF * county_mult)
  let sqftU : ℤ := max 600 (pyOrInt sqft 1800)
  let adj : ℚ := 1.0
  let adj :=
    if pyTruthyInt beds then
      adj + (if 5 ≤ beds.getD 0 then (0.08 : ℚ)
             else if beds.getD 0 = 4 then 0.05
             else if beds.getD 0 = 3 then 0.02
             else 0)
    else adj
  let adj :=
    if pyTruthyRat baths then
      adj + (if 3 ≤ pyOrRat baths 0 then (0.05 : ℚ)
             else if 2 ≤ pyOrRat baths 0 then 0.03
             else 0)
    else adj
  let adj :=
    match condition with
    | none => adj
    | some c =>
      if c ≠ "" then
        match List.lookup c CONDITION_ADJ with
        | some d => adj + d
        | none => adj
      else adj
  let est : ℤ := pyRound (base_ppsf * (sqftU : ℚ) * adj)
  let band : ℚ := if pyTruthyStr condition then 0.05 else 0.08
  { estimate := est,
    low := pyInt ((est : ℚ) * (1 - band)),
    high := pyInt ((est : ℚ) * (1 + band)),
    ppsf_used := base_ppsf,
    sqft_used := sqftU,
    adjustment := pyRound3 adj,
    band := band }

/-- src/app.py lines 19-39 LeadBase: the persisted lead record.  The id and
timestamp columns of Lead (lines 41-44) are collaborator concerns not touched
by any claim and are omitted. -/
structure Lead where
  role : String
  first_name : Option String := none
  last_name : Option String := none
  email : Option String := none
  phone : Option String := none
  address : Option String := none
  zip_code : Option String := none
  county : Option String := none
  beds : Option Int := none
  baths : Option ℚ := none
  sqft : Option Int := none
  price_min : Option Int := none
  price_max : Option Int := none
  timeline : Option String := none
  condition : Option String := none
  tags : Option String := none
  stage : String := "New"
  consent_sms : Bool := false
  consent_email : Bool := false
  score : ℤ := 0
  deriving DecidableEq, Repr

/-- src/app.py line 116: the stage point table of compute_score. -/
def STAGE_POINTS : List (String × ℤ) :=
  [("New", 0), ("Contacted", 5), ("Qualified", 10),
   ("Appointment", 20), ("Agreement", 30), ("Closed/Lost", 0)]

/-- Stage contribution: the dict .get(stage, 0) on line 116. -/
def stagePoints (stage : String) : ℤ :=
  (List.lookup stage STAGE_POINTS).getD 0

/-- src/app.py lines 108-117 compute_score, translated statement by
statement. -/
def compute_score (ld : Lead) : ℤ :=
  let s : ℤ := 0
  let s := if pyTruthyStr ld.phone then s + 15 else s
  let s := if pyTruthyStr ld.email then s + 10 else s
  let s := if ld.timeline = some "0-3" ∨ ld.timeline = some "3-6" then s + 15 else s
  let s := if ld.role = "seller" ∧ pyTruthyStr ld.address then s + 20 else s
  let s := if ld.consent_sms then s + 10 else s
  let s := if ld.consent_email then s + 5 else s
  let s := s + stagePoints ld.stage
  s

/-- A JSON payload for the lead endpoints: each field is wrapped in an extra
Option recording whether the key is present in the request dict, since
update_lead only touches keys the payload carries. -/
structure LeadPayload where
  role : Option String := none
  first_name : Option (Option String) := none
  last_name : Option (Option String) := none
  email : Option (Option String) := none
  phone : Option (Option String) := none
  address : Option (Option String) := none
  zip_code : Option (Option String) := none
  county : Option (Option String) := none
  beds : Option (Option Int) := none
  baths : Option (Option ℚ) := none
  sqft : Option (Option Int) := none
  price_min : Option (Option Int) := none
  price_max : Option (Option Int) := none
  timeline : Option (Option String) := none
  condition : Option (Option String) := none
  tags : Option (Option String) := none
  stage : Option String := none
  consent_sms : Option Bool := none
  consent_email : Option Bool := none
  score : Option ℤ := none
  deriving DecidableEq, Repr

/-- The setattr loop of update_lead (src/app.py lines 200-201), also the
field assignment performed by the Lead(**payload) constructor call in
create_lead (line 158): every key present in the payload replaces the
corresponding attribute. -/
def applyPayload (ld : Lead) (p : LeadPayload) : Lead :=
  { role := p.role.getD ld.role,
    first_name := p.first_name.getD ld.first_name,
    last_name := p.last_name.getD ld.last_name,
    email := p.email.getD ld.email,
    phone := p.phone.getD ld.phone,
    address := p.address.getD ld.address,
    zip_code := p.zip_code.getD ld.zip_code,
    county := p.county.getD ld.county,
    beds := p.beds.getD ld.beds,
    baths := p.baths.getD ld.baths,
    sqft := p.sqft.getD ld.sqft,
    price_min := p.price_min.getD ld.price_min,
    price_max := p.price_max.getD ld.price_max,
    timeline := p.timeline.getD ld.timeline,
    condition := p.condition.getD ld.condition,
    tags := p.tags.getD ld.tags,
    stage := p.stage.getD ld.stage,
    consent_sms := p.consent_sms.getD ld.consent_sms,
    consent_email := p.consent_email.getD ld.consent_email,
    score := p.score.getD ld.score }

/-- src/app.py lines 155-161 create_lead: build the record from the payload
over the model defaults (role is the one required field; a missing role makes
the constructor fail), then overwrite score with compute_score before
persisting. -/
def create_lead (p : LeadPayload) : Option Lead :=
  match p.role with
  | none => none
  | some r =>
    let ld := applyPayload { role := r } p
    some { ld with score := compute_score ld }

/-- src/app.py lines 194-204 update_lead: apply the payload keys to the
stored record, then overwrite score with compute_score before persisting. -/
def update_lead (ld : Lead) (p : LeadPayload) : Lead :=
  let ld2 := applyPayload ld p
  { ld2 with score := compute_score ld2 }

/-- A loosely typed JSON value as the admin ppsf endpoints receive it:
a number, a string, or null.  (The zip field is modelled separately as an
optional string, the only shape the claims exercise.) -/
inductive PyVal where
  | vNum (q : ℚ)
  | vStr (s : String)
  | vNone
  deriving DecidableEq, Repr

/-- Digits of a decimal literal folded into a natural number. -/
def natOfDigits (cs : List Char) : ℕ :=
  cs.foldl (fun n c => 10 * n + (c.toNat - 48)) 0

/-- Python float(string) restricted to plain decimal literals, the only
string forms the repository feeds it: optional sign, digits, at most one
point.  Returns none on anything else, as float() raises ValueError. -/
def parseFloatQ (s : String) : Option ℚ :=
  let cs := (pyStrip s).toList
  let sgn : ℚ × List Char :=
    match cs with
    | '-' :: rest => (-1, rest)
    | '+' :: rest => (1, rest)
    | _ => (1, cs)
  let ipart := sgn.2.takeWhile Char.isDigit
  let rest := sgn.2.dropWhile Char.isDigit
  match rest with
  | [] =>
    if ipart.isEmpty then none
    else some (sgn.1 * (natOfDigits ipart : ℚ))
  | '.' :: fpart =>
    if fpart.all Char.isDigit ∧ ¬(ipart.isEmpty ∧ fpart.isEmpty) then
      some (sgn.1 * ((natOfDigits ipart : ℚ) +
        (natOfDigits fpart : ℚ) / (10 : ℚ) ^ fpart.length))
    else none
  | _ => none

/-- Python float(v) on a JSON value: numbers pass through, strings are
parsed, null raises (none). -/
def pyFloat (v : PyVal) : Option ℚ :=
  match v with
  | .vNum q => some q
  | .vStr s => parseFloatQ s
  | .vNone => none

/-- Python str(v) for the zip value of a bulk entry: an absent or null zip
key stringifies to "None". -/
def pyStrOfZip : Option String → String
  | none => "None"
  | some s => s

/-- One JSON object sent to the ppsf admin endpoints: a zip key (absent/null
or a string) and a ppsf key (any JSON value). -/
structure PpsfItem where
  zip : Option String
  ppsf : PyVal
  deriving DecidableEq, Repr

/-- Outcome of the single-ZIP override endpoint. -/
inductive SetStatus where
  | ok (z : String) (p : ℚ)
  | typeError
  | validationError
  deriving DecidableEq, Repr

/-- src/app.py lines 214-226 admin_set_ppsf: z is the stripped zip (or ""),
p = float(ppsf) which raises out of the handler when the value does not
convert (typeError), then the zip is rejected with HTTP 400 unless it has
exactly 5 characters (validationError); otherwise the row is upserted.
The resulting table is returned alongside the status. -/
def admin_set_ppsf (store : Store) (item : PpsfItem) : Store × SetStatus :=
  let z := pyStrip (item.zip.getD "")
  match pyFloat item.ppsf with
  | none => (store, .typeError)
  | some p =>
    if z = "" ∨ z.length ≠ 5 then (store, .validationError)
    else (storeSet store z p, .ok z p)

/-- src/app.py lines 228-243 admin_set_ppsf_bulk: each entry is processed in
a try block: z = str(zip).strip(), p = float(ppsf); a conversion failure
skips the entry, an upsert happens only when len(z) == 5; the response count
is len(items). -/
def admin_set_ppsf_bulk (store : Store) (items : List PpsfItem) : Store × ℕ :=
  let final := items.foldl (fun st it =>
    let z := pyStrip (pyStrOfZip it.zip)
    match pyFloat it.ppsf with
    | none => st
    | some p => if z.length = 5 then storeSet st z p else st) store
  (final, items.length)

namespace Valuation
/-- The dictionary returned by the older revision of the valuation function
(src/valuation.py lines 37-44): same keys minus band. -/
structure Result where
  estimate : ℤ
  low : ℤ
  high : ℤ
  ppsf_used : ℚ
  sqft_used : ℤ
  adjustment : ℚ
  deriving DecidableEq, Repr
/-- src/valuation.py lines 23-44 estimate_value: the older repository
revision of the valuation function, parametrised by the per-ZIP rate data
its module loads from comps.csv. -/
def estimate_value (zipPpsf : List (String × ℚ)) (zip_code : Option String)
    (beds : Option Int) (baths : Option ℚ) (sqft : Option Int) : Result :=
  let ppsf := (List.lookup (zip_code.getD "") zipPpsf).getD DEFAULT_PPSF
  let sqftU : ℤ := max 600 (pyOrInt sqft 1800)
  let adj : ℚ := 1.0
  let adj :=
    if pyTruthyInt beds then
      if 5 ≤ beds.getD 0 then adj + 0.08
      else if beds.getD 0 = 4 then adj + 0.05
      else if beds.getD 0 = 3 then adj + 0.02
      else adj
    else adj
  let adj :=
    if pyTruthyRat baths then
      if 3 ≤ baths.getD 0 then adj + 0.05
      else if 2 ≤ baths.getD 0 then adj + 0.03
      else adj
    else adj
  let est : ℤ := pyRound (ppsf * (sqftU : ℚ) * adj)
  { estimate := est,
    low := pyInt ((est : ℚ) * 0.93),
    high := pyInt ((est : ℚ) * 1.07),
    ppsf_used := ppsf,
    sqft_used := sqftU,
    adjustment := adj }
end Valuation

/-- Projection helper: the resolved square footage, read off the
definition. -/
theorem estimate_value_sqft_used (store : Store) (zip_code : Option String)
    (beds : Option Int) (baths : Option ℚ) (sqft : Option Int)
    (condition : Option String) (county : Option String) :
    (estimate_value store zip_code beds baths sqft condition county).sqft_used
      = max 600 (pyOrInt sqft 1800) := rfl

/-- C4 counterexample: the claim says sqftUsed is 1800 whenever sqft is
absent or non-positive, but a negative sqft is truthy in Python, so the
default of 1800 is not applied and the 600 floor is used instead. -/
theorem c4_counterexample :
    (estimate_value store0 none none none (some (-5)) none none).sqft_used = 600
    ∧ (-5 : ℤ) < 0 ∧ (600 : ℤ) ≠ 1800 := by decide

/-- A creation payload that carries a caller-supplied score of 999. -/
def c8Payload : LeadPayload :=
  { role := some "seller", phone := some (some "3015550100"), score := some 999 }

/-- The bulk batch named by claim C2. -/
def c2Batch : List PpsfItem :=
  [⟨some "20774", PyVal.vNum 300⟩, ⟨some "1", PyVal.vNum 10⟩,
   ⟨some "20777", PyVal.vStr "bad"⟩]

/-- The adjustment-factor chain of the current revision (src/app.py lines
98-101), exactly as inlined in estimate_value. -/
def appAdj (beds : Option Int) (baths : Option ℚ) (condition : Option String) : ℚ :=
  let adj : ℚ := 1.0
  let adj :=
    if pyTruthyInt beds then
      adj + (if 5 ≤ beds.getD 0 then (0.08 : ℚ)
             else if beds.getD 0 = 4 then 0.05
             else if beds.getD 0 = 3 then 0.02
             else 0)
    else adj
  let adj :=
    if pyTruthyRat baths then
      adj + (if 3 ≤ pyOrRat baths 0 then (0.05 : ℚ)
             else if 2 ≤ pyOrRat baths 0 then 0.03
             else 0)
    else adj
  let adj :=
    match condition with
    | none => adj
    | some c =>
      if c ≠ "" then
        match List.lookup c CONDITION_ADJ with
        | some d => adj + d
        | none => adj
      else adj
  adj

/-- The adjustment-factor chain of the older revision (src/valuation.py
lines 26-33), exactly as inlined there. -/
def valAdj (beds : Option Int) (baths : Option ℚ) : ℚ :=
  let adj : ℚ := 1.0
  let adj :=
    if pyTruthyInt beds then
      if 5 ≤ beds.getD 0 then adj + 0.08
      else if beds.getD 0 = 4 then adj + 0.05
      else if beds.getD 0 = 3 then adj + 0.02
      else adj
    else adj
  let adj :=
    if pyTruthyRat baths then
      if 3 ≤ baths.getD 0 then adj + 0.05
      else if 2 ≤ baths.getD 0 then adj + 0.03
      else adj
    else adj
  adj

end Samson

open Samson

/-- Evaluation helper: with the empty override table the merged map is just
the seed table. -/
theorem current_ppsf_map_store0 (z : String) :
    current_ppsf_map store0 z = List.lookup z PG_PPSF_BASE := rfl

/-- Projection helper: the resolved price per square foot of the current
revision, read off the definition. -/
theorem estimate_value_ppsf_used (store : Store) (zip_code : Option String)
    (beds : Option Int) (baths : Option ℚ) (sqft : Option Int)
    (condition : Option String) (county : Option String) :
    (estimate_value store zip_code beds baths sqft condition county).ppsf_used
      = (current_ppsf_map store (pyStrip (zip_code.getD ""))).getD
          (DEFAULT_PPSF * countyMultiplier county) := rfl

/-- Projection helper: the confidence band, read off the definition. -/
theorem estimate_value_band (store : Store) (zip_code : Option String)
    (beds : Option Int) (baths : Option ℚ) (sqft : Option Int)
    (condition : Option String) (county : Option String) :
    (estimate_value store zip_code beds baths sqft condition county).band
      = if pyTruthyStr condition then 0.05 else 0.08 := rfl

/-- C6: with an empty override store and an all-absent descriptor, the
valuation returns ppsfUsed 220.0, sqftUsed 1800, adjustmentFactor 1.0,
estimate 396000, band 0.08, low 364320 and high 427680, with low and high
produced by integer truncation of estimate times (1 minus band) and
(1 plus band). -/
theorem c6_default_descriptor_estimate :
    estimate_value store0 none none none none none none =
      { estimate := 396000, low := 364320, high := 427680, ppsf_used := 220.0,
        sqft_used := 1800, adjustment := 1.0, band := 0.08 }
    ∧ (estimate_value store0 none none none none none none).low
        = pyInt ((396000 : ℚ) * (1 - 0.08))
    ∧ (estimate_value store0 none none none none none none).high
        = pyInt ((396000 : ℚ) * (1 + 0.08)) := by
  have h1 : List.lookup (pyStrip "") PG_PPSF_BASE = none := by decide
  have h2 : countyMultiplier none = 1.0 := by
    have h : List.lookup (pyStrip "") COUNTY_MULT = none := by decide
    simp [countyMultiplier, h]
  refine ⟨?_, ?_, ?_⟩ <;>
    · simp only [estimate_value, Option.getD_none, current_ppsf_map_store0, h1, h2,
        pyTruthyInt, pyTruthyRat, pyTruthyStr, pyOrInt, DEFAULT_PPSF,
        ValuationResult.mk.injEq]
      norm_num [pyRound, pyInt, pyRound3]

/-- C7: compute_score is a total function equal to the sum of the
independent contributions listed by the claim, with the stage table giving
New 0, Contacted 5, Qualified 10, Appointment 20, Agreement 30 and
Closed/Lost 0. -/
theorem c7_score_sum_of_contributions (ld : Lead) :
    compute_score ld =
      (if pyTruthyStr ld.phone then 15 else 0)
      + (if pyTruthyStr ld.email then 10 else 0)
      + (if ld.timeline = some "0-3" ∨ ld.timeline = some "3-6" then 15 else 0)
      + (if ld.role = "seller" ∧ pyTruthyStr ld.address then 20 else 0)
      + (if ld.consent_sms then 10 else 0)
      + (if ld.consent_email then 5 else 0)
      + stagePoints ld.stage
    ∧ stagePoints "New" = 0 ∧ stagePoints "Contacted" = 5
    ∧ stagePoints "Qualified" = 10 ∧ stagePoints "Appointment" = 20
    ∧ stagePoints "Agreement" = 30 ∧ stagePoints "Closed/Lost" = 0 := by
  refine ⟨?_, by decide, by decide, by decide, by decide, by decide, by decide⟩
  simp only [compute_score]
  split_ifs <;> omega

/-- C10: a present condition outside the recognized table (such as
"Excellent") leaves the adjustment factor exactly as in the identical call
without a condition, yet still narrows the band to 0.05 rather than 0.08. -/
theorem c10_unrecognized_condition_band (store : Store) (zip_code : Option String)
    (beds : Option Int) (baths : Option ℚ) (sqft : Option Int)
    (county : Option String) (c : String) (hne : c ≠ "")
    (hun : List.lookup c CONDITION_ADJ = none) :
    (estimate_value store zip_code beds baths sqft (some c) county).adjustment
      = (estimate_value store zip_code beds baths sqft none county).adjustment
    ∧ (estimate_value store zip_code beds baths sqft (some c) county).band = 0.05
    ∧ (0.05 : ℚ) ≠ 0.08 := by
  refine ⟨?_, ?_, by norm_num⟩
  · simp only [estimate_value, hun, hne, ne_eq, not_false_iff, if_true]
  · simp [estimate_value_band, pyTruthyStr, hne]

/-- C10 witness: the properties at condition "Excellent" (and at the
misspelling "NeedsWork"), which are not recognized entries. -/
theorem c10_witness :
    ((estimate_value store0 none none none none (some "Excellent") none).adjustment
      = (estimate_value store0 none none none none none none).adjustment
    ∧ (estimate_value store0 none none none none (some "Excellent") none).band = 0.05
    ∧ (0.05 : ℚ) ≠ 0.08)
    ∧ ((estimate_value store0 none none none none (some "NeedsWork") none).band = 0.05) :=
  ⟨c10_unrecognized_condition_band store0 none none none none none "Excellent"
      (by decide) (by decide),
   (c10_unrecognized_condition_band store0 none none none none none "NeedsWork"
      (by decide) (by decide)).2.1⟩

/-- C5 counterexample: the claim reserves band 0.05 for recognized condition
values, but the code tests only truthiness: the unrecognized value
"Excellent" already gets band 0.05, not 0.08. -/
theorem c5_counterexample :
    (estimate_value store0 none none none none (some "Excellent") none).band = 0.05
    ∧ List.lookup "Excellent" CONDITION_ADJ = none
    ∧ (0.05 : ℚ) ≠ 0.08 :=
  ⟨rfl, by decide, by norm_num⟩

/-- C5 amended: the band is 0.05 exactly when the condition is a present,
non-empty string, recognized or not, and 0.08 otherwise; in particular the
pair of calls differing only in condition "Average" versus absent yields
bands 0.05 and 0.08. -/
theorem c5_band_on_truthy_condition (store : Store) (zip_code : Option String)
    (beds : Option Int) (baths : Option ℚ) (sqft : Option Int)
    (condition : Option String) (county : Option String) :
    (pyTruthyStr condition = true →
      (estimate_value store zip_code beds baths sqft condition county).band = 0.05)
    ∧ (pyTruthyStr condition = false →
      (estimate_value store zip_code beds baths sqft condition county).band = 0.08)
    ∧ (estimate_value store zip_code beds baths sqft (some "Average") county).band = 0.05
    ∧ (estimate_value store zip_code beds baths sqft none county).band = 0.08 := by
  refine ⟨fun h => ?_, fun h => ?_, rfl, rfl⟩ <;>
    simp [estimate_value_band, h]

/-- C5 witness: the amended statement applied with a concrete truthy and a
concrete falsy condition. -/
theorem c5_witness :
    (estimate_value store0 none none none none (some "Average") none).band = 0.05
    ∧ (estimate_value store0 none none none none none none).band = 0.08 :=
  ⟨(c5_band_on_truthy_condition store0 none none none none (some "Average") none).1
      (by decide),
   (c5_band_on_truthy_condition store0 none none none none none none).2.1
      (by decide)⟩

/-- C4 amended: sqftUsed equals max(600, sqft or 1800) under Python
truthiness: always at least 600, equal to 1800 when sqft is absent or zero,
and clamped to 600 (not defaulted to 1800) when sqft is negative; the
example with sqft 100 uses 600. -/

theorem c4_sqft_floor_and_default (store : Store) (zip_code : Option String)
    (beds : Option Int) (baths : Option ℚ) (sqft : Option Int)
    (condition : Option String) (county : Option String) :
    (estimate_value store zip_code beds baths sqft condition county).sqft_used
      = max 600 (pyOrInt sqft 1800)
    ∧ 600 ≤ (estimate_value store zip_code beds baths sqft condition county).sqft_used
    ∧ (sqft = none ∨ sqft = some 0 →
      (estimate_value store zip_code beds baths sqft condition county).sqft_used = 1800)
    ∧ (∀ n : ℤ, sqft = some n → n < 0 →
      (estimate_value store zip_code beds baths sqft condition county).sqft_used = 600)
    ∧ (estimate_value store zip_code beds baths (some 100) condition county).sqft_used
        = 600 := by
  refine ⟨estimate_value_sqft_used .., ?_, ?_, ?_,
    by rw [estimate_value_sqft_used]; decide⟩
  · rw [estimate_value_sqft_used]; exact le_max_left _ _
  · rintro (rfl | rfl) <;> (rw [estimate_value_sqft_used]; decide)
  · rintro n rfl hn
    rw [estimate_value_sqft_used]
    simp only [pyOrInt]
    rw [if_neg (by omega)]
    omega

/-- C4 witness: the amended statement applied at concrete inputs with sqft
absent and sqft negative. -/
theorem c4_witness :
    (estimate_value store0 none none none none none none).sqft_used = 1800
    ∧ (estimate_value store0 none none none (some (-7)) none none).sqft_used = 600 :=
  ⟨(c4_sqft_floor_and_default store0 none none none none none none).2.2.1 (Or.inl rfl),
   (c4_sqft_floor_and_default store0 none none none (some (-7)) none none).2.2.2.1
      (-7) rfl (by decide)⟩

theorem c1_ppsf_layered_precedence (store : Store)
    (hstore : ∀ z : String, (store z).isSome → z.length = 5)
    (zip_code : Option String) (beds : Option Int) (baths : Option ℚ)
    (sqft : Option Int) (condition : Option String) (county : Option String) :
    (∀ s v, zip_code = some s → current_ppsf_map store (pyStrip s) = some v →
      (estimate_value store zip_code beds baths sqft condition county).ppsf_used = v)
    ∧ (∀ s, zip_code = some s → current_ppsf_map store (pyStrip s) = none →
      (estimate_value store zip_code beds baths sqft condition county).ppsf_used
        = DEFAULT_PPSF * countyMultiplier county)
    ∧ (zip_code = none →
      (estimate_value store zip_code beds baths sqft condition county).ppsf_used
        = DEFAULT_PPSF * countyMultiplier county)
    ∧ List.lookup "20774" PG_PPSF_BASE = some 268
    ∧ (estimate_value (storeSet store0 "20774" 300) (some "20774") none none
        (some 2000) none none).ppsf_used = 300 := by
  refine ⟨?_, ?_, ?_, by decide, by decide⟩
  · rintro s v rfl hm
    rw [estimate_value_ppsf_used]
    simp [hm]
  · rintro s rfl hm
    rw [estimate_value_ppsf_used]
    simp [hm]
  · rintro rfl
    rw [estimate_value_ppsf_used]
    have hs : store "" = none := by
      cases h : store "" with
      | none => rfl
      | some q => exact absurd (hstore "" (by simp [h])) (by decide)
    have hm : current_ppsf_map store (pyStrip "") = none := by
      have hp : pyStrip "" = "" := by decide
      rw [hp]
      unfold current_ppsf_map
      rw [hs]
      decide
    simp [hm]

/-- C1 witness: the precedence theorem applied to the concrete store holding
the single override 20774 to 300. -/
theorem c1_witness :
    (estimate_value (storeSet store0 "20774" 300) (some "20774") none none
      (some 2000) none none).ppsf_used = 300 :=
  (c1_ppsf_layered_precedence (storeSet store0 "20774" 300)
    (by
      intro z h
      by_cases hz : z = "20774"
      · subst hz; decide
      · simp [storeSet, store0, hz] at h)
    (some "20774") none none (some 2000) none none).1 "20774" 300 rfl (by decide)

/-- C8: the persisted score after lead creation and after every lead update
is the scoring function of the record, and compute_score ignores any
caller-supplied score value. -/
theorem c8_score_recomputed_on_create_and_update (p : LeadPayload) (ld0 : Lead) :
    (∀ ld : Lead, create_lead p = some ld → ld.score = compute_score ld)
    ∧ (update_lead ld0 p).score = compute_score (update_lead ld0 p)
    ∧ (∀ (ld : Lead) (x : ℤ), compute_score { ld with score := x } = compute_score ld) := by
  refine ⟨?_, rfl, fun ld x => rfl⟩
  intro ld h
  simp only [create_lead] at h
  cases hp : p.role with
  | none => rw [hp] at h; exact absurd h (by simp)
  | some r =>
    rw [hp] at h
    simp only [Option.some.injEq] at h
    subst h
    rfl

/-- C8 witness: creating from a payload with score 999 persists the
recomputed score 15, not 999. -/
theorem c8_witness :
    ({ role := "seller", phone := some "3015550100", score := 15 } : Lead).score
      = compute_score { role := "seller", phone := some "3015550100", score := 15 } :=
  (c8_score_recomputed_on_create_and_update c8Payload { role := "seller" }).1
    { role := "seller", phone := some "3015550100", score := 15 } (by decide)

/-- C2 counterexample: on the claim batch only 20774 is written, but the
returned count is len(items) = 3, not the claimed 1. -/
theorem c2_counterexample :
    (admin_set_ppsf_bulk store0 c2Batch).2 = 3
    ∧ (admin_set_ppsf_bulk store0 c2Batch).2 ≠ 1
    ∧ (admin_set_ppsf_bulk store0 c2Batch).1 "20774" = some 300
    ∧ (admin_set_ppsf_bulk store0 c2Batch).1 "1" = none
    ∧ (admin_set_ppsf_bulk store0 c2Batch).1 "20777" = none := by decide

/-- C2 amended: entries are validated independently, but only by float
convertibility of the price and a 5-character stripped zip (digits and
positivity are not checked); invalid entries are skipped without aborting;
duplicates are last-write-wins; and the returned count is the total batch
length, not the number of ZIP codes written: the example batch updates only
20774 yet returns count 3. -/
theorem c2_bulk_semantics :
    (∀ (store : Store) (items : List PpsfItem),
      (admin_set_ppsf_bulk store items).2 = items.length)
    ∧ (∀ (store : Store) (it : PpsfItem),
      (admin_set_ppsf_bulk store [it]).1 =
        match pyFloat it.ppsf with
        | none => store
        | some p =>
          if (pyStrip (pyStrOfZip it.zip)).length = 5 then
            storeSet store (pyStrip (pyStrOfZip it.zip)) p
          else store)
    ∧ (∀ (store : Store) (z : String) (p q : ℚ), (pyStrip z).length = 5 →
      (admin_set_ppsf_bulk store [⟨some z, PyVal.vNum p⟩, ⟨some z, PyVal.vNum q⟩]).1
        (pyStrip z) = some q)
    ∧ (admin_set_ppsf_bulk store0 c2Batch).1 "20774" = some 300
    ∧ (∀ z, z ≠ "20774" → (admin_set_ppsf_bulk store0 c2Batch).1 z = store0 z) := by
  refine ⟨fun store items => rfl, fun store it => rfl, ?_, by decide, ?_⟩
  · intro store z p q h
    simp only [admin_set_ppsf_bulk, List.foldl, pyFloat, pyStrOfZip]
    rw [if_pos h, if_pos h]
    simp [storeSet]
  · intro z hz
    have hfinal : (admin_set_ppsf_bulk store0 c2Batch).1
        = storeSet store0 "20774" 300 := rfl
    rw [hfinal]
    simp [storeSet, hz]

/-- C2 witness: last write wins for a duplicated valid ZIP in one batch. -/
theorem c2_witness :
    (admin_set_ppsf_bulk store0
      [⟨some "11111", PyVal.vNum 2⟩, ⟨some "11111", PyVal.vNum 7⟩]).1
      (pyStrip "11111") = some 7 :=
  c2_bulk_semantics.2.2.1 store0 "11111" 2 7 (by decide)

/-- C3 counterexample: the claim requires failure whenever the zip is not 5
numeric characters, but the code checks only the length: zip "abcde" with
price 100 succeeds and writes the override. -/
theorem c3_counterexample :
    (admin_set_ppsf store0 ⟨some "abcde", PyVal.vNum 100⟩).2 = SetStatus.ok "abcde" 100
    ∧ (admin_set_ppsf store0 ⟨some "abcde", PyVal.vNum 100⟩).1 "abcde" = some 100
    ∧ ("abcde".toList.all Char.isDigit) = false := by decide

/-- C3 amended: the single-ZIP set fails exactly when the price does not
convert via float (an uncaught conversion error) or the stripped zip does
not have exactly 5 characters (the 400 validation error); digits and
positivity are never checked; on failure the store is unchanged, otherwise
the override is written. -/
theorem c3_set_validation (store : Store) (item : PpsfItem) :
    ((admin_set_ppsf store item).2 = SetStatus.typeError ↔ pyFloat item.ppsf = none)
    ∧ (∀ p, pyFloat item.ppsf = some p →
        ((admin_set_ppsf store item).2 = SetStatus.validationError
          ↔ (pyStrip (item.zip.getD "")).length ≠ 5))
    ∧ ((admin_set_ppsf store item).2 = SetStatus.typeError ∨
       (admin_set_ppsf store item).2 = SetStatus.validationError →
       (admin_set_ppsf store item).1 = store)
    ∧ (∀ p, pyFloat item.ppsf = some p → (pyStrip (item.zip.getD "")).length = 5 →
        (admin_set_ppsf store item).1
          = storeSet store (pyStrip (item.zip.getD "")) p
        ∧ (admin_set_ppsf store item).2
          = SetStatus.ok (pyStrip (item.zip.getD "")) p) := by
  rcases hf : pyFloat item.ppsf with _ | p0 <;>
    simp only [admin_set_ppsf, hf]
  · refine ⟨by simp, ?_, by intro h; trivial, ?_⟩
    · intro p hp; simp at hp
    · intro p hp; simp at hp
  · by_cases hcond : pyStrip (item.zip.getD "") = ""
        ∨ (pyStrip (item.zip.getD "")).length ≠ 5
    · rw [if_pos hcond]
      have hlen : (pyStrip (item.zip.getD "")).length ≠ 5 := by
        rcases hcond with h | h
        · rw [h]; decide
        · exact h
      refine ⟨by simp, ?_, by intro h; trivial, ?_⟩
      · intro p hp
        simp only [Option.some.injEq] at hp
        simpa using hlen
      · intro p hp h5
        exact absurd h5 hlen
    · rw [if_neg hcond]
      push_neg at hcond
      refine ⟨by simp, ?_, by simp, ?_⟩
      · intro p hp
        simp only [Option.some.injEq] at hp
        simp [hcond.2]
      · intro p hp h5
        simp only [Option.some.injEq] at hp
        subst hp
        exact ⟨rfl, rfl⟩

/-- C3 witness: a valid 5-digit zip with a numeric price succeeds and writes
the override row. -/
theorem c3_witness :
    (admin_set_ppsf store0 ⟨some "20775", PyVal.vNum 310⟩).1
      = storeSet store0 (pyStrip ((some "20775").getD "")) 310
    ∧ (admin_set_ppsf store0 ⟨some "20775", PyVal.vNum 310⟩).2
      = SetStatus.ok (pyStrip ((some "20775").getD "")) 310 :=
  (c3_set_validation store0 ⟨some "20775", PyVal.vNum 310⟩).2.2.2 310 rfl (by decide)

/-- Projection helper: the estimate of the current revision. -/
theorem estimate_value_estimate (store : Store) (zip_code : Option String)
    (beds : Option Int) (baths : Option ℚ) (sqft : Option Int)
    (condition : Option String) (county : Option String) :
    (estimate_value store zip_code beds baths sqft condition county).estimate
      = pyRound ((estimate_value store zip_code beds baths sqft condition county).ppsf_used
          * ((max 600 (pyOrInt sqft 1800) : ℤ) : ℚ) * appAdj beds baths condition) := rfl

/-- Projection helper: the low bound of the current revision. -/
theorem estimate_value_low (store : Store) (zip_code : Option String)
    (beds : Option Int) (baths : Option ℚ) (sqft : Option Int)
    (condition : Option String) (county : Option String) :
    (estimate_value store zip_code beds baths sqft condition county).low
      = pyInt (((estimate_value store zip_code beds baths sqft condition county).estimate : ℚ)
          * (1 - (estimate_value store zip_code beds baths sqft condition county).band)) := rfl

/-- Projection helper: the resolved rate of the older revision. -/
theorem valuation_ppsf_used (zipPpsf : List (String × ℚ)) (zip_code : Option String)
    (beds : Option Int) (baths : Option ℚ) (sqft : Option Int) :
    (Valuation.estimate_value zipPpsf zip_code beds baths sqft).ppsf_used
      = (List.lookup (zip_code.getD "") zipPpsf).getD DEFAULT_PPSF := rfl

/-- Projection helper: the estimate of the older revision. -/
theorem valuation_estimate (zipPpsf : List (String × ℚ)) (zip_code : Option String)
    (beds : Option Int) (baths : Option ℚ) (sqft : Option Int) :
    (Valuation.estimate_value zipPpsf zip_code beds baths sqft).estimate
      = pyRound ((Valuation.estimate_value zipPpsf zip_code beds baths sqft).ppsf_used
          * ((max 600 (pyOrInt sqft 1800) : ℤ) : ℚ) * valAdj beds baths) := rfl

/-- Projection helper: the low bound of the older revision. -/
theorem valuation_low (zipPpsf : List (String × ℚ)) (zip_code : Option String)
    (beds : Option Int) (baths : Option ℚ) (sqft : Option Int) :
    (Valuation.estimate_value zipPpsf zip_code beds baths sqft).low
      = pyInt (((Valuation.estimate_value zipPpsf zip_code beds baths sqft).estimate : ℚ)
          * 0.93) := rfl

/-- Truthy optional floats coincide with their getD 0 value under
Python `or`. -/
theorem pyOrRat_truthy (b : Option ℚ) (h : pyTruthyRat b = true) :
    pyOrRat b 0 = b.getD 0 := by
  rcases b with _ | q
  · simp [pyTruthyRat] at h
  · simp only [pyTruthyRat, Bool.not_eq_eq_eq_not, Bool.not_false, beq_iff_eq] at h
    simp only [pyOrRat, Option.getD_some]
    rw [if_neg (by simpa using h)]

/-- The two adjustment chains agree when no condition is supplied. -/
theorem valAdj_eq_appAdj (beds : Option Int) (baths : Option ℚ) :
    valAdj beds baths = appAdj beds baths none := by
  simp only [valAdj, appAdj]
  by_cases ht : pyTruthyRat baths = true
  · rw [pyOrRat_truthy baths ht]
    simp only [ht, if_true]
    split_ifs <;> norm_num
  · simp only [Bool.not_eq_true] at ht
    simp only [ht, Bool.false_eq_true, if_false]
    split_ifs <;> norm_num

/-- C9 counterexample: the two revisions do not agree on the common domain.
With everything absent both estimate 396000, but the older revision returns
low 368280 (7 percent band) while the newer returns low 364320 (8 percent
band); and for the whitespace-padded zip " 20774" even the estimates differ,
because only the newer revision strips the zip before lookup. -/
theorem c9_counterexample :
    (Valuation.estimate_value PG_PPSF_BASE none none none none).low = 368280
    ∧ (estimate_value store0 none none none none none none).low = 364320
    ∧ (368280 : ℤ) ≠ 364320
    ∧ (Valuation.estimate_value PG_PPSF_BASE (some " 20774") none none none).estimate
        = 396000
    ∧ (estimate_value store0 (some " 20774") none none none none none).estimate
        = 482400 := by
  have hadjOld : valAdj none none = 1.0 := by norm_num [valAdj, pyTruthyInt, pyTruthyRat]
  have hadjNew : appAdj none none none = 1.0 := by
    norm_num [appAdj, pyTruthyInt, pyTruthyRat]
  have hsq : ((max 600 (pyOrInt none 1800) : ℤ) : ℚ) = 1800 := by norm_num [pyOrInt]
  have hestOld : (Valuation.estimate_value PG_PPSF_BASE none none none none).estimate
      = 396000 := by
    rw [valuation_estimate, valuation_ppsf_used]
    have h : List.lookup ((none : Option String).getD "") PG_PPSF_BASE = none := by decide
    rw [h, hadjOld, hsq]
    norm_num [pyRound, DEFAULT_PPSF]
  have hestNew : (estimate_value store0 none none none none none none).estimate
      = 396000 := by
    rw [estimate_value_estimate, estimate_value_ppsf_used]
    have h : current_ppsf_map store0 (pyStrip ((none : Option String).getD ""))
        = none := by decide
    have hc : countyMultiplier none = 1.0 := by
      have h2 : List.lookup (pyStrip "") COUNTY_MULT = none := by decide
      simp [countyMultiplier, h2]
    rw [h, hadjNew, hsq, hc]
    norm_num [pyRound, DEFAULT_PPSF]
  refine ⟨?_, ?_, by decide, ?_, ?_⟩
  · rw [valuation_low, hestOld]
    norm_num [pyInt]
  · rw [estimate_value_low, hestNew, estimate_value_band]
    norm_num [pyInt, pyTruthyStr]
  · rw [valuation_estimate, valuation_ppsf_used]
    have h : List.lookup ((some " 20774").getD "") PG_PPSF_BASE = none := by decide
    rw [h, hadjOld, hsq]
    norm_num [pyRound, DEFAULT_PPSF]
  · rw [estimate_value_estimate, estimate_value_ppsf_used]
    have h : current_ppsf_map store0 (pyStrip ((some " 20774").getD ""))
        = some 268 := by decide
    rw [h, hadjNew, hsq]
    norm_num [pyRound]

/-- C9 amended: on the common domain (no condition, no county, empty
override store, the seed table as rate data) and for zips carrying no
surrounding whitespace, the two revisions agree on estimate, ppsfUsed and
sqftUsed; the low and high bounds differ in general, the older revision
computing int(est * 0.93) and int(est * 1.07) while the newer computes
int(est * 0.92) and int(est * 1.08) when no condition is given. -/
theorem c9_revisions_estimate_agreement (zip_code : Option String)
    (beds : Option Int) (baths : Option ℚ) (sqft : Option Int)
    (hzip : pyStrip (zip_code.getD "") = zip_code.getD "") :
    (Valuation.estimate_value PG_PPSF_BASE zip_code beds baths sqft).estimate
      = (estimate_value store0 zip_code beds baths sqft none none).estimate
    ∧ (Valuation.estimate_value PG_PPSF_BASE zip_code beds baths sqft).ppsf_used
      = (estimate_value store0 zip_code beds baths sqft none none).ppsf_used
    ∧ (Valuation.estimate_value PG_PPSF_BASE zip_code beds baths sqft).sqft_used
      = (estimate_value store0 zip_code beds baths sqft none none).sqft_used := by
  have hc : countyMultiplier none = 1.0 := by
    have h : List.lookup (pyStrip "") COUNTY_MULT = none := by decide
    simp [countyMultiplier, h]
  have hppsf : (Valuation.estimate_value PG_PPSF_BASE zip_code beds baths sqft).ppsf_used
      = (estimate_value store0 zip_code beds baths sqft none none).ppsf_used := by
    rw [valuation_ppsf_used, estimate_value_ppsf_used, hzip, current_ppsf_map_store0,
      hc]
    norm_num
  refine ⟨?_, hppsf, rfl⟩
  rw [valuation_estimate, estimate_value_estimate, hppsf, valAdj_eq_appAdj]

/-- C9 witness: agreement of the two revisions at a concrete in-domain
input. -/
theorem c9_witness :
    (Valuation.estimate_value PG_PPSF_BASE (some "20774") (some 4) (some 2)
      (some 2100)).estimate
      = (estimate_value store0 (some "20774") (some 4) (some 2) (some 2100)
          none none).estimate :=
  (c9_revisions_estimate_agreement (some "20774") (some 4) (some 2) (some 2100)
    (by decide)).1
